import Mathlib

/-!
Verification of the multi-chain provider gateway from
crates/chain-manager/src/api.rs.

The Rust code is shallowly embedded: the DashMap of providers becomes an
association list with DashMap insert semantics (replace on existing key),
the network is an explicit oracle `String → Except String Provider`
(the `String` error models the Debug rendering of the transport error),
and the two RPC query methods return an `RpcOutcome` that distinguishes a
successful return, a returned error, and a Rust panic (the source calls
`Result::unwrap` / `Option::unwrap` in several places).  Each embedded
function also reports how many configuration lookups and connection
attempts it performed, so that claims about "no network I/O" can be
stated.
-/

namespace Gateway

/-- An established connection handle (an `Arc<dyn Provider>` in the
source).  The `id` distinguishes physically distinct connections;
`endpoint` is the URL it is bound to. -/
structure Provider where
  id : Nat
  endpoint : String
deriving DecidableEq, Repr

/-- Mirrors `struct ChainConfig { chain_id: u64, rpc_url: String }`. -/
structure ChainConfig where
  chain_id : Nat
  rpc_url : String
deriving DecidableEq, Repr

/-- Mirrors `enum ChainManagerError` with its four variants. -/
inductive ChainManagerError where
  | ChainIdNotFound (reason : String) (chain_id : Nat)
  | NodeFailure (reason : String) (chain_id : Nat)
  | ProviderFailure (reason : String) (chain_id : Nat)
  | GenericFailure (reason : String) (chain_id : Nat)
deriving DecidableEq, Repr

/-- The provider cache: the `DashMap<u64, Arc<dyn Provider>>` state as an
association list. -/
abbrev Cache := List (Nat × Provider)

/-- Lookup in the cache (`self.providers.get(&chain_id)`). -/
def cacheGet (cache : Cache) (k : Nat) : Option Provider :=
  match cache.find? (fun e => e.fst == k) with
  | some e => some e.snd
  | none => none

/-- Insert into the cache with DashMap semantics: replace the value if the
key is present, append otherwise (`self.providers.insert(chain_id, ...)`). -/
def cacheInsert (cache : Cache) (k : Nat) (v : Provider) : Cache :=
  match cache with
  | [] => [(k, v)]
  | e :: rest => if e.fst == k then (k, v) :: rest else e :: cacheInsert rest k v

/-- The network oracle: connecting to a URL either yields a fresh provider
handle or a transport error (`ProviderBuilder::new().connect(url).await`). -/
abbrev Net := String → Except String Provider

instance {ε α : Type} [DecidableEq ε] [DecidableEq α] : DecidableEq (Except ε α)
  | Except.error a, Except.error b =>
    if h : a = b then isTrue (by rw [h]) else isFalse (by intro hc; cases hc; exact h rfl)
  | Except.error _, Except.ok _ => isFalse (by intro h; cases h)
  | Except.ok _, Except.error _ => isFalse (by intro h; cases h)
  | Except.ok a, Except.ok b =>
    if h : a = b then isTrue (by rw [h]) else isFalse (by intro hc; cases hc; exact h rfl)

/-- The full observable behaviour of one `get_provider` call: its returned
value, the cache state afterwards, and how many configuration lookups and
connection-establishment attempts (network I/O) it performed. -/
structure GetProviderTrace where
  result : Except ChainManagerError Provider
  providers : Cache
  config_lookups : Nat
  connect_attempts : Nat
deriving DecidableEq, Repr

/-- Embedding of `ChainManagerImpl::get_provider` (api.rs lines 74-100):
return a cached handle immediately if present; otherwise look the chain id
up in the configured list (first match), failing with `ChainIdNotFound` if
absent; otherwise attempt to connect, failing with `GenericFailure` (and
storing nothing) on a transport error, and storing and returning the fresh
handle on success. -/
def get_provider (configs : List ChainConfig) (net : Net) (providers : Cache)
    (chain_id : Nat) : GetProviderTrace :=
  match cacheGet providers chain_id with
  | some provider => ⟨Except.ok provider, providers, 0, 0⟩
  | none =>
    match configs.find? (fun config => config.chain_id == chain_id) with
    | none =>
      ⟨Except.error (ChainManagerError.ChainIdNotFound "Chain id not configured" chain_id),
        providers, 1, 0⟩
    | some chain_config =>
      match net chain_config.rpc_url with
      | Except.error e =>
        ⟨Except.error (ChainManagerError.GenericFailure
            ("Something went wrong while initialising provider " ++ e) chain_id),
          providers, 1, 1⟩
      | Except.ok provider =>
        ⟨Except.ok provider, cacheInsert providers chain_id provider, 1, 1⟩

/-- Mirrors `struct ChainManagerImpl { configs, providers }`. -/
structure ChainManagerImpl where
  configs : List ChainConfig
  providers : Cache
deriving DecidableEq, Repr

/-- Embedding of `ChainManagerImpl::new` (api.rs lines 137-141): store the
configuration list as given (no validation) and start with an empty
provider cache (`Default::default()`). -/
def ChainManagerImpl.new (configs : List ChainConfig) : ChainManagerImpl :=
  ⟨configs, []⟩

/-- Block selector passed to `finalisedHeader` (`BlockNumberOrTag`). -/
inductive BlockNumberOrTag where
  | latest
  | finalized
  | number (n : Nat)
deriving DecidableEq, Repr

/-- A block header as returned by the node; only the field the repository
tests inspect is modelled, the rest of the header is opaque payload. -/
structure Header where
  number : Nat
  payload : String
deriving DecidableEq, Repr

/-- A full block as returned by `get_block_by_number(..).full()`. -/
structure Block where
  header : Header
deriving DecidableEq, Repr

/-- A transaction receipt; only the fields the repository tests inspect are
modelled. -/
structure Receipt where
  transaction_hash : Nat
  status : Bool
deriving DecidableEq, Repr

/-- Oracle for `provider.get_block_by_number(at).full()`: a transport or
node failure (rendered as a `String`), a missing block, or a block. -/
abbrev BlockOracle := Provider → BlockNumberOrTag → Except String (Option Block)

/-- Oracle for `provider.get_transaction_receipt(tx_hash)`: a failure, or
an optional receipt (`None` when no receipt exists for the hash). -/
abbrev ReceiptOracle := Provider → Nat → Except String (Option Receipt)

/-- Outcome of one RPC method call as observed by the serving layer: a
successful return value, an error returned to the caller (to be encoded on
the wire via `ErrorObjectOwned`), or a Rust panic raised inside the
handler.  A panic on `Result::unwrap` carries the `Err` payload that was
unwrapped (`some e`); a panic on `Option::unwrap` carries `none`. -/
inductive RpcOutcome (α : Type) where
  | ok : α → RpcOutcome α
  | err : ChainManagerError → RpcOutcome α
  | panicked : Option ChainManagerError → RpcOutcome α
deriving DecidableEq, Repr

/-- Outcome of one query method together with the provider-cache state it
leaves behind. -/
structure QueryTrace (α : Type) where
  outcome : RpcOutcome α
  providers : Cache
deriving DecidableEq, Repr

/-- Embedding of `ChainManagerImpl::finalised_header` (api.rs lines
105-117).  The source computes
`let provider = self.get_provider(chain_id).await.map_err(|error| error)`
and then calls `provider.unwrap()`: when `get_provider` failed this
panics instead of returning the error.  On a query failure the source maps
the error to `GenericFailure` but then evaluates `header.unwrap()`, which
panics on that very error; on a missing block `..unwrap()` on the `None`
panics as well.  Only a present block reaches `Ok(...)`. -/
def finalised_header (configs : List ChainConfig) (net : Net) (node : BlockOracle)
    (providers : Cache) (chain_id : Nat) (at_tag : BlockNumberOrTag) : QueryTrace Header :=
  let gp := get_provider configs net providers chain_id
  match gp.result with
  | Except.error e => ⟨RpcOutcome.panicked (some e), gp.providers⟩
  | Except.ok provider =>
    match node provider at_tag with
    | Except.error e =>
      ⟨RpcOutcome.panicked (some (ChainManagerError.GenericFailure
          ("Something went wrong while getting finalised header " ++ e) chain_id)),
        gp.providers⟩
    | Except.ok none => ⟨RpcOutcome.panicked none, gp.providers⟩
    | Except.ok (some block) => ⟨RpcOutcome.ok block.header, gp.providers⟩

/-- Embedding of `ChainManagerImpl::transaction_receipt` (api.rs lines
118-134).  As in `finalised_header`, `provider.unwrap()` panics when
`get_provider` failed, and `receipt.unwrap()` panics on a query failure
(after mapping it to `GenericFailure`).  A successful query returns
`Ok(receipt)` unchanged, so a missing receipt is returned as `none`. -/
def transaction_receipt (configs : List ChainConfig) (net : Net) (node : ReceiptOracle)
    (providers : Cache) (chain_id : Nat) (tx_hash : Nat) : QueryTrace (Option Receipt) :=
  let gp := get_provider configs net providers chain_id
  match gp.result with
  | Except.error e => ⟨RpcOutcome.panicked (some e), gp.providers⟩
  | Except.ok provider =>
    match node provider tx_hash with
    | Except.error e =>
      ⟨RpcOutcome.panicked (some (ChainManagerError.GenericFailure
          ("Something went wrong while getting transaction receipt " ++ e) chain_id)),
        gp.providers⟩
    | Except.ok receipt => ⟨RpcOutcome.ok receipt, gp.providers⟩

/-- The wire error object (`jsonrpsee::types::ErrorObjectOwned`): a
machine-readable code, a human-readable message, and auxiliary data. -/
structure ErrorObjectOwned where
  code : Int
  message : String
  data : Option Nat
deriving DecidableEq, Repr

/-- Embedding of `impl From<ChainManagerError> for ErrorObjectOwned`
(api.rs lines 54-71). -/
def errorObjectFrom : ChainManagerError → ErrorObjectOwned
  | ChainManagerError.ChainIdNotFound reason chain_id => ⟨-4004, reason, some chain_id⟩
  | ChainManagerError.NodeFailure reason chain_id => ⟨-4005, reason, some chain_id⟩
  | ChainManagerError.ProviderFailure reason chain_id => ⟨-4006, reason, some chain_id⟩
  | ChainManagerError.GenericFailure reason chain_id => ⟨-4007, reason, some chain_id⟩

/-! ## Cache lemmas -/

theorem cacheGet_nil (k : Nat) : cacheGet [] k = none := rfl

theorem cacheGet_cons (e : Nat × Provider) (l : Cache) (k : Nat) :
    cacheGet (e :: l) k = if e.fst = k then some e.snd else cacheGet l k := by
  by_cases h : e.fst = k
  · unfold cacheGet
    rw [List.find?_cons_of_pos _ (by simp [h]), if_pos h]
  · unfold cacheGet
    rw [List.find?_cons_of_neg _ (by simp [h]), if_neg h]

theorem cacheInsert_nil (k : Nat) (v : Provider) : cacheInsert [] k v = [(k, v)] := rfl

theorem cacheInsert_cons (e : Nat × Provider) (rest : Cache) (k : Nat) (v : Provider) :
    cacheInsert (e :: rest) k v =
      if e.fst = k then (k, v) :: rest else e :: cacheInsert rest k v := by
  by_cases h : e.fst = k <;> simp [cacheInsert, h]

theorem cacheGet_insert_self (cache : Cache) (k : Nat) (v : Provider) :
    cacheGet (cacheInsert cache k v) k = some v := by
  induction cache with
  | nil => rw [cacheInsert_nil, cacheGet_cons]; simp
  | cons e rest ih =>
    by_cases h : e.fst = k
    · rw [cacheInsert_cons, if_pos h, cacheGet_cons]; simp
    · rw [cacheInsert_cons, if_neg h, cacheGet_cons, if_neg h]
      exact ih

theorem cacheGet_insert_ne (cache : Cache) (k j : Nat) (v : Provider) (h : j ≠ k) :
    cacheGet (cacheInsert cache k v) j = cacheGet cache j := by
  induction cache with
  | nil =>
    rw [cacheInsert_nil, cacheGet_cons, if_neg (fun hkj => h hkj.symm)]
  | cons e rest ih =>
    by_cases hek : e.fst = k
    · rw [cacheInsert_cons, if_pos hek, cacheGet_cons, cacheGet_cons,
        if_neg (show ¬(k = j) by omega), if_neg (show ¬(e.fst = j) by omega)]
    · rw [cacheInsert_cons, if_neg hek, cacheGet_cons, cacheGet_cons]
      by_cases hej : e.fst = j
      · rw [if_pos hej, if_pos hej]
      · rw [if_neg hej, if_neg hej]
        exact ih

/-! ## Step equations for get_provider -/

theorem get_provider_hit (configs : List ChainConfig) (net : Net) (providers : Cache)
    (chain_id : Nat) (p : Provider) (hc : cacheGet providers chain_id = some p) :
    get_provider configs net providers chain_id = ⟨Except.ok p, providers, 0, 0⟩ := by
  simp only [get_provider, hc]

theorem get_provider_notfound (configs : List ChainConfig) (net : Net) (providers : Cache)
    (chain_id : Nat) (hc : cacheGet providers chain_id = none)
    (hf : configs.find? (fun config => config.chain_id == chain_id) = none) :
    get_provider configs net providers chain_id =
      ⟨Except.error (ChainManagerError.ChainIdNotFound "Chain id not configured" chain_id),
        providers, 1, 0⟩ := by
  simp only [get_provider, hc, hf]

theorem get_provider_connect_fail (configs : List ChainConfig) (net : Net) (providers : Cache)
    (chain_id : Nat) (cfg : ChainConfig) (e : String)
    (hc : cacheGet providers chain_id = none)
    (hf : configs.find? (fun config => config.chain_id == chain_id) = some cfg)
    (hn : net cfg.rpc_url = Except.error e) :
    get_provider configs net providers chain_id =
      ⟨Except.error (ChainManagerError.GenericFailure
          ("Something went wrong while initialising provider " ++ e) chain_id),
        providers, 1, 1⟩ := by
  simp only [get_provider, hc, hf, hn]

theorem get_provider_connect_ok (configs : List ChainConfig) (net : Net) (providers : Cache)
    (chain_id : Nat) (cfg : ChainConfig) (p : Provider)
    (hc : cacheGet providers chain_id = none)
    (hf : configs.find? (fun config => config.chain_id == chain_id) = some cfg)
    (hn : net cfg.rpc_url = Except.ok p) :
    get_provider configs net providers chain_id =
      ⟨Except.ok p, cacheInsert providers chain_id p, 1, 1⟩ := by
  simp only [get_provider, hc, hf, hn]

/-- If `get_provider` returns a handle, that handle is stored in the cache
state it leaves behind. -/
theorem get_provider_ok_cached (configs : List ChainConfig) (net : Net)
    (providers : Cache) (chain_id : Nat) (p : Provider)
    (h : (get_provider configs net providers chain_id).result = Except.ok p) :
    cacheGet (get_provider configs net providers chain_id).providers chain_id = some p := by
  cases hc : cacheGet providers chain_id with
  | some q =>
    rw [get_provider_hit configs net providers chain_id q hc] at h ⊢
    have hq : q = p := by simpa using h
    rw [← hq]
    exact hc
  | none =>
    cases hf : configs.find? (fun config => config.chain_id == chain_id) with
    | none =>
      rw [get_provider_notfound configs net providers chain_id hc hf] at h
      simp at h
    | some chain_config =>
      cases hn : net chain_config.rpc_url with
      | error e =>
        rw [get_provider_connect_fail configs net providers chain_id chain_config e hc hf hn] at h
        simp at h
      | ok q =>
        rw [get_provider_connect_ok configs net providers chain_id chain_config q hc hf hn] at h ⊢
        have hq : q = p := by simpa using h
        rw [← hq]
        exact cacheGet_insert_self providers chain_id q

/-! ## Concrete fixtures used by witnesses -/

def demoProvider : Provider := ⟨7, "http://localhost:8545"⟩

def demoProviderB : Provider := ⟨8, "http://localhost:8546"⟩

def demoConfigs : List ChainConfig := [⟨1, "http://localhost:8545"⟩]

def demoNetOk : Net := fun _ => Except.ok demoProvider

def demoNetOkB : Net := fun _ => Except.ok demoProviderB

def demoNetFail : Net := fun _ => Except.error "connection refused"

def demoGenesisHeader : Header := ⟨0, "genesis"⟩

def demoNodeOk : BlockOracle := fun _ _ => Except.ok (some ⟨demoGenesisHeader⟩)

def demoNodeMissing : BlockOracle := fun _ _ => Except.ok none

def demoNodeFail : BlockOracle := fun _ _ => Except.error "node reported an execution error"

def demoReceiptOk : ReceiptOracle := fun _ h => Except.ok (some ⟨h, true⟩)

def demoReceiptMissing : ReceiptOracle := fun _ _ => Except.ok none

def demoReceiptFail : ReceiptOracle := fun _ _ => Except.error "transport dropped"

/-! ## Claims -/

/-- C1: after a first successful `get_provider` call for a configured
chain id, every subsequent call for the same id returns the same stored
handle immediately, with no configuration lookup and no connection
establishment — the second call's behaviour does not even depend on the
network oracle. -/
theorem C1_cached_handle_reused (configs : List ChainConfig) (net net2 : Net)
    (providers : Cache) (chain_id : Nat) (p : Provider)
    (h : (get_provider configs net providers chain_id).result = Except.ok p) :
    get_provider configs net2 (get_provider configs net providers chain_id).providers chain_id =
      ⟨Except.ok p, (get_provider configs net providers chain_id).providers, 0, 0⟩ := by
  exact get_provider_hit configs net2 (get_provider configs net providers chain_id).providers
    chain_id p (get_provider_ok_cached configs net providers chain_id p h)

theorem C1_witness :
    get_provider demoConfigs demoNetFail
        (get_provider demoConfigs demoNetOk [] 1).providers 1 =
      ⟨Except.ok demoProvider, (get_provider demoConfigs demoNetOk [] 1).providers, 0, 0⟩ :=
  C1_cached_handle_reused demoConfigs demoNetOk demoNetFail [] 1 demoProvider rfl

/-- A cache in which every stored key belongs to a configured chain.  It
holds for the empty cache `ChainManagerImpl::new` starts from and is
preserved by every `get_provider` call. -/
def cacheConfigured (configs : List ChainConfig) (cache : Cache) : Prop :=
  ∀ k p, cacheGet cache k = some p → ∃ cfg ∈ configs, cfg.chain_id = k

theorem get_provider_preserves_cacheConfigured (configs : List ChainConfig) (net : Net)
    (providers : Cache) (chain_id : Nat)
    (h : cacheConfigured configs providers) :
    cacheConfigured configs (get_provider configs net providers chain_id).providers := by
  cases hc : cacheGet providers chain_id with
  | some q => rw [get_provider_hit configs net providers chain_id q hc]; exact h
  | none =>
    cases hf : configs.find? (fun config => config.chain_id == chain_id) with
    | none => rw [get_provider_notfound configs net providers chain_id hc hf]; exact h
    | some chain_config =>
      cases hn : net chain_config.rpc_url with
      | error e =>
        rw [get_provider_connect_fail configs net providers chain_id chain_config e hc hf hn]
        exact h
      | ok q =>
        rw [get_provider_connect_ok configs net providers chain_id chain_config q hc hf hn]
        intro k p hk
        by_cases hkc : k = chain_id
        · refine ⟨chain_config, List.mem_of_find?_eq_some hf, ?_⟩
          have hpred := List.find?_some hf
          simp at hpred
          rw [hpred, hkc]
        · have hk2 : cacheGet providers k = some p := by
            rw [← cacheGet_insert_ne providers chain_id k q hkc]
            exact hk
          exact h k p hk2

/-- C2: for a chain id absent from the configured list, `get_provider`
returns `ChainIdNotFound` carrying that chain id and a reason, makes no
connection-establishment attempt, and leaves the cache unchanged.  The
`cacheConfigured` hypothesis holds in every reachable state: `new` starts
with the empty cache and `get_provider` preserves it. -/
theorem C2_unconfigured_chain_not_found (configs : List ChainConfig) (net : Net)
    (providers : Cache) (c : Nat)
    (hinv : cacheConfigured configs providers)
    (habs : ∀ cfg ∈ configs, cfg.chain_id ≠ c) :
    get_provider configs net providers c =
      ⟨Except.error (ChainManagerError.ChainIdNotFound "Chain id not configured" c),
        providers, 1, 0⟩ := by
  have hmiss : cacheGet providers c = none := by
    cases hg : cacheGet providers c with
    | none => rfl
    | some p =>
      obtain ⟨cfg, hmem, hcfg⟩ := hinv c p hg
      exact absurd hcfg (habs cfg hmem)
  have hfind : configs.find? (fun cfg => cfg.chain_id == c) = none := by
    rw [List.find?_eq_none]
    intro x hx
    simpa using habs x hx
  exact get_provider_notfound configs net providers c hmiss hfind

theorem C2_witness :
    get_provider demoConfigs demoNetOk [] 2 =
      ⟨Except.error (ChainManagerError.ChainIdNotFound "Chain id not configured" 2), [], 1, 0⟩ :=
  C2_unconfigured_chain_not_found demoConfigs demoNetOk [] 2
    (fun _ _ h => Option.noConfusion h) (by simp [demoConfigs])

/-- C3: for a configured chain id whose connection establishment fails,
`get_provider` returns `GenericFailure` carrying the underlying transport
error and the chain id, leaves the cache unchanged (nothing stored), and a
subsequent call for the same id performs a fresh establishment attempt. -/
theorem C3_connect_failure_not_cached (configs : List ChainConfig) (net : Net)
    (providers : Cache) (c : Nat) (cfg : ChainConfig) (e : String)
    (hmiss : cacheGet providers c = none)
    (hfind : configs.find? (fun x => x.chain_id == c) = some cfg)
    (hnet : net cfg.rpc_url = Except.error e) :
    get_provider configs net providers c =
      ⟨Except.error (ChainManagerError.GenericFailure
          ("Something went wrong while initialising provider " ++ e) c), providers, 1, 1⟩ ∧
    (get_provider configs net (get_provider configs net providers c).providers c).connect_attempts
      = 1 := by
  have h1 := get_provider_connect_fail configs net providers c cfg e hmiss hfind hnet
  refine ⟨h1, ?_⟩
  rw [h1, h1]

theorem C3_witness :
    (get_provider demoConfigs demoNetFail [] 1 =
      ⟨Except.error (ChainManagerError.GenericFailure
          ("Something went wrong while initialising provider " ++ "connection refused") 1),
        [], 1, 1⟩) ∧
    (get_provider demoConfigs demoNetFail
        (get_provider demoConfigs demoNetFail [] 1).providers 1).connect_attempts = 1 :=
  C3_connect_failure_not_cached demoConfigs demoNetFail [] 1
    ⟨1, "http://localhost:8545"⟩ "connection refused" rfl rfl rfl

/-- C4: the claim says a `get_provider` failure is returned unchanged by
`finalised_header` and `transaction_receipt`; the code instead calls
`Result::unwrap` on the failed result, so both methods panic carrying that
error rather than returning it.  This theorem documents the actual
(buggy) behaviour: whenever `get_provider` fails, both methods panic on
exactly that error. -/
theorem C4_provider_error_panics_not_returned (configs : List ChainConfig) (net : Net)
    (node : BlockOracle) (rnode : ReceiptOracle) (providers : Cache)
    (chain_id tx_hash : Nat) (at_tag : BlockNumberOrTag) (e : ChainManagerError)
    (h : (get_provider configs net providers chain_id).result = Except.error e) :
    (finalised_header configs net node providers chain_id at_tag).outcome =
      RpcOutcome.panicked (some e) ∧
    (transaction_receipt configs net rnode providers chain_id tx_hash).outcome =
      RpcOutcome.panicked (some e) := by
  refine ⟨?_, ?_⟩ <;> simp only [finalised_header, transaction_receipt, h]

theorem C4_witness :
    (finalised_header demoConfigs demoNetOk demoNodeOk [] 9999 BlockNumberOrTag.latest).outcome =
      RpcOutcome.panicked
        (some (ChainManagerError.ChainIdNotFound "Chain id not configured" 9999)) ∧
    (transaction_receipt demoConfigs demoNetOk demoReceiptOk [] 9999 5).outcome =
      RpcOutcome.panicked
        (some (ChainManagerError.ChainIdNotFound "Chain id not configured" 9999)) :=
  C4_provider_error_panics_not_returned demoConfigs demoNetOk demoNodeOk demoReceiptOk []
    9999 5 BlockNumberOrTag.latest
    (ChainManagerError.ChainIdNotFound "Chain id not configured" 9999) rfl

/-- C5: the claim says no input makes the process panic; but when the node
reports no block for the selector (a missing block, `Ok(None)` from
`get_block_by_number`), `finalised_header` evaluates `..unwrap()` on that
`None` and panics.  Evaluated at a concrete input: configured chain 1,
successful connection, node returning no block. -/
theorem C5_missing_block_panics :
    (finalised_header demoConfigs demoNetOk demoNodeMissing [] 1 BlockNumberOrTag.latest).outcome
      = RpcOutcome.panicked none := rfl

/-- C6 counterexample: with a configured chain and the node call failing
with a node-side error, `finalised_header` neither returns `NodeFailure`
nor any error at all: it panics (on the `GenericFailure` it had just
built).  The second conjunct records that the outcome is not an `err` of
any kind. -/
theorem C6_counterexample_node_error_is_panic :
    (finalised_header demoConfigs demoNetOk demoNodeFail [] 1 BlockNumberOrTag.latest).outcome =
      RpcOutcome.panicked (some (ChainManagerError.GenericFailure
        ("Something went wrong while getting finalised header "
          ++ "node reported an execution error") 1)) ∧
    (match (finalised_header demoConfigs demoNetOk demoNodeFail [] 1
        BlockNumberOrTag.latest).outcome with
      | RpcOutcome.err _ => False
      | _ => True) ∧
    (finalised_header demoConfigs demoNetOk demoNodeFail [] 1 BlockNumberOrTag.latest).outcome ≠
      RpcOutcome.err (ChainManagerError.NodeFailure "node reported an execution error" 1) :=
  ⟨rfl, True.intro, by decide⟩

/-- C6 amended: when the get-block-by-number call fails, `finalised_header`
always selects `GenericFailure{reason, chain_id}` (it never produces
`NodeFailure`, whatever the failure is attributable to) and then panics on
that error via `unwrap` instead of returning it. -/
theorem C6_amended_always_generic_failure_then_panic (configs : List ChainConfig) (net : Net)
    (node : BlockOracle) (providers : Cache) (chain_id : Nat) (at_tag : BlockNumberOrTag)
    (p : Provider) (e : String)
    (hok : (get_provider configs net providers chain_id).result = Except.ok p)
    (hnode : node p at_tag = Except.error e) :
    (finalised_header configs net node providers chain_id at_tag).outcome =
      RpcOutcome.panicked (some (ChainManagerError.GenericFailure
        ("Something went wrong while getting finalised header " ++ e) chain_id)) := by
  simp only [finalised_header, hok, hnode]

theorem C6_amended_witness :
    (finalised_header demoConfigs demoNetOkB demoNodeFail [] 1 BlockNumberOrTag.finalized).outcome
      = RpcOutcome.panicked (some (ChainManagerError.GenericFailure
        ("Something went wrong while getting finalised header "
          ++ "node reported an execution error") 1)) :=
  C6_amended_always_generic_failure_then_panic demoConfigs demoNetOkB demoNodeFail [] 1
    BlockNumberOrTag.finalized demoProviderB "node reported an execution error" rfl rfl

/-- C7: a missing receipt is indeed returned as a successful absence
(`Ok(None)`), as the claim says; but when the receipt query itself fails
the code builds `GenericFailure` and then panics on `receipt.unwrap()`
instead of returning it.  Both behaviours evaluated at concrete inputs on
configured chain 1. -/
theorem C7_absence_ok_but_failure_panics :
    (transaction_receipt demoConfigs demoNetOk demoReceiptMissing [] 1 42).outcome =
      RpcOutcome.ok none ∧
    (transaction_receipt demoConfigs demoNetOk demoReceiptFail [] 1 42).outcome =
      RpcOutcome.panicked (some (ChainManagerError.GenericFailure
        ("Something went wrong while getting transaction receipt " ++ "transport dropped") 1)) :=
  ⟨rfl, rfl⟩

/-- C8: the wire mapping sends the four error variants to four pairwise
distinct machine-readable codes (-4004, -4005, -4006, -4007), carrying the
human-readable reason as the message and the chain id as auxiliary data. -/
theorem C8_wire_mapping_distinct_codes (r1 r2 : String) (c1 c2 : Nat) :
    errorObjectFrom (ChainManagerError.ChainIdNotFound r1 c1) = ⟨-4004, r1, some c1⟩ ∧
    errorObjectFrom (ChainManagerError.NodeFailure r1 c1) = ⟨-4005, r1, some c1⟩ ∧
    errorObjectFrom (ChainManagerError.ProviderFailure r1 c1) = ⟨-4006, r1, some c1⟩ ∧
    errorObjectFrom (ChainManagerError.GenericFailure r1 c1) = ⟨-4007, r1, some c1⟩ ∧
    (errorObjectFrom (ChainManagerError.ChainIdNotFound r1 c1)).code ≠
      (errorObjectFrom (ChainManagerError.NodeFailure r2 c2)).code ∧
    (errorObjectFrom (ChainManagerError.ChainIdNotFound r1 c1)).code ≠
      (errorObjectFrom (ChainManagerError.ProviderFailure r2 c2)).code ∧
    (errorObjectFrom (ChainManagerError.ChainIdNotFound r1 c1)).code ≠
      (errorObjectFrom (ChainManagerError.GenericFailure r2 c2)).code ∧
    (errorObjectFrom (ChainManagerError.NodeFailure r1 c1)).code ≠
      (errorObjectFrom (ChainManagerError.ProviderFailure r2 c2)).code ∧
    (errorObjectFrom (ChainManagerError.NodeFailure r1 c1)).code ≠
      (errorObjectFrom (ChainManagerError.GenericFailure r2 c2)).code ∧
    (errorObjectFrom (ChainManagerError.ProviderFailure r1 c1)).code ≠
      (errorObjectFrom (ChainManagerError.GenericFailure r2 c2)).code := by
  refine ⟨rfl, rfl, rfl, rfl, ?_, ?_, ?_, ?_, ?_, ?_⟩
  · exact (by decide : ((-4004 : Int)) ≠ -4005)
  · exact (by decide : ((-4004 : Int)) ≠ -4006)
  · exact (by decide : ((-4004 : Int)) ≠ -4007)
  · exact (by decide : ((-4005 : Int)) ≠ -4006)
  · exact (by decide : ((-4005 : Int)) ≠ -4007)
  · exact (by decide : ((-4006 : Int)) ≠ -4007)

/-- The first configuration whose chain id matches is the one `find?`
returns, regardless of what follows it in the list. -/
theorem find_first_config (l1 l2 : List ChainConfig) (cfg : ChainConfig) (c : Nat)
    (hc : cfg.chain_id = c) (h1 : ∀ x ∈ l1, x.chain_id ≠ c) :
    (l1 ++ cfg :: l2).find? (fun x => x.chain_id == c) = some cfg := by
  induction l1 with
  | nil =>
    rw [List.nil_append, List.find?_cons_of_pos _ (by simp [hc])]
  | cons a rest ih =>
    rw [List.cons_append,
      List.find?_cons_of_neg _ (by simp [h1 a (List.mem_cons_self a rest)])]
    exact ih (fun x hx => h1 x (List.mem_cons_of_mem a hx))

/-- C10: `ChainManagerImpl::new` performs no validation, so a
configuration list with duplicate chain ids is accepted as given; and
`get_provider` resolves through `Iterator::find`, so the first entry in
list order with a matching chain id is used and every later (duplicate)
entry is never consulted: the call behaves identically when everything
after the first match is dropped. -/
theorem C10_duplicates_accepted_first_entry_wins (configs1 configs2 : List ChainConfig)
    (cfg : ChainConfig) (net : Net) (providers : Cache) (c : Nat)
    (hmiss : cacheGet providers c = none)
    (hc : cfg.chain_id = c)
    (hfirst : ∀ x ∈ configs1, x.chain_id ≠ c) :
    ChainManagerImpl.new (configs1 ++ cfg :: configs2) =
      ⟨configs1 ++ cfg :: configs2, []⟩ ∧
    (configs1 ++ cfg :: configs2).find? (fun x => x.chain_id == c) = some cfg ∧
    get_provider (configs1 ++ cfg :: configs2) net providers c =
      get_provider (configs1 ++ [cfg]) net providers c := by
  have hfind := find_first_config configs1 configs2 cfg c hc hfirst
  have hfind1 := find_first_config configs1 [] cfg c hc hfirst
  refine ⟨rfl, hfind, ?_⟩
  cases hn : net cfg.rpc_url with
  | error e =>
    rw [get_provider_connect_fail (configs1 ++ cfg :: configs2) net providers c cfg e
        hmiss hfind hn,
      get_provider_connect_fail (configs1 ++ [cfg]) net providers c cfg e hmiss hfind1 hn]
  | ok p =>
    rw [get_provider_connect_ok (configs1 ++ cfg :: configs2) net providers c cfg p
        hmiss hfind hn,
      get_provider_connect_ok (configs1 ++ [cfg]) net providers c cfg p hmiss hfind1 hn]

def dupConfigOther : ChainConfig := ⟨2, "http://localhost:9000"⟩

def dupConfigFirst : ChainConfig := ⟨1, "http://localhost:8545"⟩

def dupConfigShadowed : ChainConfig := ⟨1, "http://localhost:9999"⟩

theorem C10_witness :
    ChainManagerImpl.new ([dupConfigOther] ++ dupConfigFirst :: [dupConfigShadowed]) =
      ⟨[dupConfigOther] ++ dupConfigFirst :: [dupConfigShadowed], []⟩ ∧
    ([dupConfigOther] ++ dupConfigFirst :: [dupConfigShadowed]).find?
        (fun x => x.chain_id == 1) = some dupConfigFirst ∧
    get_provider ([dupConfigOther] ++ dupConfigFirst :: [dupConfigShadowed]) demoNetOk [] 1 =
      get_provider ([dupConfigOther] ++ [dupConfigFirst]) demoNetOk [] 1 :=
  C10_duplicates_accepted_first_entry_wins [dupConfigOther] [dupConfigShadowed]
    dupConfigFirst demoNetOk [] 1 rfl rfl
    (by simp [dupConfigOther])

/-! ## Interleaving model of concurrent get_provider calls (C9)

The source serves callers concurrently; `get_provider` has exactly one
suspension point, the `connect(url).await`.  Each caller is modelled as a
small program split at that point: step one performs the cache lookup and
the configuration lookup, step two performs the connection attempt and,
on success, the store.  A schedule interleaves the callers' steps against
the shared cache in an arbitrary order, which covers the documented race:
several callers can all miss the cache before any of them inserts, and
the DashMap insert (replace-if-present) is applied atomically per step. -/

/-- Program counter of one in-flight `get_provider` call. -/
inductive CallerPC where
  | start
  | ready (rpc_url : String)
  | finished (r : Except ChainManagerError Provider)
deriving DecidableEq, Repr

/-- One caller: its program counter, and the outcome its own connection
attempt will have (each establishment creates its own fresh handle, so
racing callers may build distinct providers). -/
structure Caller where
  pc : CallerPC
  conn : Except String Provider
deriving DecidableEq, Repr

/-- Whether a caller has run to completion. -/
def CallerPC.isFinished : CallerPC → Bool
  | CallerPC.finished _ => true
  | _ => false

/-- Whether a caller's connection attempt will succeed. -/
def Caller.connIsOk : Caller → Bool :=
  fun caller =>
    match caller.conn with
    | Except.ok _ => true
    | Except.error _ => false

/-- One atomic step of a caller executing `get_provider` for chain id `c`
against the shared cache. -/
def callerStep (configs : List ChainConfig) (c : Nat) (cache : Cache) (caller : Caller) :
    Cache × Caller :=
  match caller.pc with
  | CallerPC.start =>
    match cacheGet cache c with
    | some p => (cache, { caller with pc := CallerPC.finished (Except.ok p) })
    | none =>
      match configs.find? (fun cfg => cfg.chain_id == c) with
      | none =>
        (cache, { caller with pc := CallerPC.finished (Except.error
          (ChainManagerError.ChainIdNotFound "Chain id not configured" c)) })
      | some cfg => (cache, { caller with pc := CallerPC.ready cfg.rpc_url })
  | CallerPC.ready _ =>
    match caller.conn with
    | Except.error e =>
      (cache, { caller with pc := CallerPC.finished (Except.error
        (ChainManagerError.GenericFailure
          ("Something went wrong while initialising provider " ++ e) c)) })
    | Except.ok p =>
      (cacheInsert cache c p, { caller with pc := CallerPC.finished (Except.ok p) })
  | CallerPC.finished _ => (cache, caller)

/-- The shared cache together with every in-flight caller. -/
structure SysState where
  cache : Cache
  callers : List Caller
deriving DecidableEq, Repr

/-- Let caller `i` take one atomic step (no-op for an out-of-range index). -/
def sysStep (configs : List ChainConfig) (c : Nat) (s : SysState) (i : Nat) : SysState :=
  match s.callers[i]? with
  | none => s
  | some caller =>
    ⟨(callerStep configs c s.cache caller).fst,
      s.callers.set i (callerStep configs c s.cache caller).snd⟩

/-- Run a whole schedule: an arbitrary interleaving of caller steps. -/
def sysRun (configs : List ChainConfig) (c : Nat) (s : SysState) : List Nat → SysState
  | [] => s
  | i :: rest => sysRun configs c (sysStep configs c s i) rest

/-- Number of cache entries stored under key `k`. -/
def countKey (cache : Cache) (k : Nat) : Nat :=
  List.countP (fun e => e.fst == k) cache

theorem mem_keys_insert (cache : Cache) (k : Nat) (v : Provider) (j : Nat) :
    j ∈ (cacheInsert cache k v).map Prod.fst ↔ j = k ∨ j ∈ cache.map Prod.fst := by
  induction cache with
  | nil => simp [cacheInsert_nil]
  | cons e rest ih =>
    by_cases h : e.fst = k
    · rw [cacheInsert_cons, if_pos h]
      simp [h]
    · rw [cacheInsert_cons, if_neg h]
      simp [ih]
      tauto

theorem nodup_keys_insert (cache : Cache) (k : Nat) (v : Provider)
    (h : (cache.map Prod.fst).Nodup) : ((cacheInsert cache k v).map Prod.fst).Nodup := by
  induction cache with
  | nil => simp [cacheInsert_nil]
  | cons e rest ih =>
    rw [List.map_cons, List.nodup_cons] at h
    obtain ⟨hnotin, hrest⟩ := h
    by_cases hek : e.fst = k
    · rw [cacheInsert_cons, if_pos hek, List.map_cons, List.nodup_cons]
      exact ⟨fun hmem => hnotin (hek ▸ hmem), hrest⟩
    · rw [cacheInsert_cons, if_neg hek, List.map_cons, List.nodup_cons]
      refine ⟨?_, ih hrest⟩
      rw [mem_keys_insert]
      rintro (heq | hmem)
      · exact hek heq
      · exact hnotin hmem

theorem countKey_eq_one_of_nodup (cache : Cache) (k : Nat) (p : Provider)
    (hn : (cache.map Prod.fst).Nodup) (hg : cacheGet cache k = some p) :
    countKey cache k = 1 := by
  induction cache with
  | nil => rw [cacheGet_nil] at hg; cases hg
  | cons e rest ih =>
    rw [List.map_cons, List.nodup_cons] at hn
    obtain ⟨hnotin, hrest⟩ := hn
    rw [cacheGet_cons] at hg
    by_cases h : e.fst = k
    · rw [if_pos h] at hg
      have hzero : List.countP (fun x => x.fst == k) rest = 0 := by
        rw [List.countP_eq_zero]
        intro a ha
        simp only [beq_iff_eq]
        intro hak
        exact hnotin (by
          rw [← h] at hak
          rw [← hak]
          exact List.mem_map_of_mem Prod.fst ha)
      unfold countKey
      rw [List.countP_cons, hzero, if_pos (by simp [h])]
    · rw [if_neg h] at hg
      unfold countKey at ih ⊢
      rw [List.countP_cons, if_neg (by simp [h]), Nat.add_zero]
      exact ih hrest hg

/-- Per-caller invariant: its connection attempt succeeds, it has not
finished with an error, and if it finished with a handle then the shared
cache holds an entry for the chain id. -/
def callerOk (c : Nat) (cache : Cache) (caller : Caller) : Prop :=
  (∃ p, caller.conn = Except.ok p) ∧
  (∀ e, caller.pc ≠ CallerPC.finished (Except.error e)) ∧
  (∀ p, caller.pc = CallerPC.finished (Except.ok p) → ∃ q, cacheGet cache c = some q)

/-- System invariant: cache keys are duplicate-free and every caller is
in a good state. -/
def sysInv (c : Nat) (s : SysState) : Prop :=
  (s.cache.map Prod.fst).Nodup ∧ ∀ caller ∈ s.callers, callerOk c s.cache caller

theorem callerStep_spec (configs : List ChainConfig) (c : Nat) (cfg0 : ChainConfig)
    (cache : Cache) (caller : Caller)
    (hconf : configs.find? (fun x => x.chain_id == c) = some cfg0)
    (hok : callerOk c cache caller) :
    ((callerStep configs c cache caller).fst = cache ∨
      ∃ p, (callerStep configs c cache caller).fst = cacheInsert cache c p) ∧
    callerOk c (callerStep configs c cache caller).fst
      (callerStep configs c cache caller).snd := by
  obtain ⟨⟨pconn, hconn⟩, hnoerr, hfin⟩ := hok
  cases hpc : caller.pc with
  | start =>
    cases hc : cacheGet cache c with
    | some p =>
      have hstep : callerStep configs c cache caller =
          (cache, { caller with pc := CallerPC.finished (Except.ok p) }) := by
        simp only [callerStep, hpc, hc]
      rw [hstep]
      refine ⟨Or.inl rfl, ⟨pconn, hconn⟩, ?_, ?_⟩
      · intro e hcontra
        simp at hcontra
      · intro q _
        exact ⟨p, hc⟩
    | none =>
      have hstep : callerStep configs c cache caller =
          (cache, { caller with pc := CallerPC.ready cfg0.rpc_url }) := by
        simp only [callerStep, hpc, hc, hconf]
      rw [hstep]
      refine ⟨Or.inl rfl, ⟨pconn, hconn⟩, ?_, ?_⟩
      · intro e hcontra
        simp at hcontra
      · intro q hq
        simp at hq
  | ready url =>
    have hstep : callerStep configs c cache caller =
        (cacheInsert cache c pconn,
          { caller with pc := CallerPC.finished (Except.ok pconn) }) := by
      simp only [callerStep, hpc, hconn]
    rw [hstep]
    refine ⟨Or.inr ⟨pconn, rfl⟩, ⟨pconn, hconn⟩, ?_, ?_⟩
    · intro e hcontra
      simp at hcontra
    · intro q _
      exact ⟨pconn, cacheGet_insert_self cache c pconn⟩
  | finished r =>
    have hstep : callerStep configs c cache caller = (cache, caller) := by
      simp only [callerStep, hpc]
    rw [hstep]
    exact ⟨Or.inl rfl, ⟨pconn, hconn⟩, hnoerr, hfin⟩

theorem sysStep_preserves_inv (configs : List ChainConfig) (c : Nat) (cfg0 : ChainConfig)
    (hconf : configs.find? (fun x => x.chain_id == c) = some cfg0)
    (s : SysState) (i : Nat) (h : sysInv c s) : sysInv c (sysStep configs c s i) := by
  obtain ⟨hnodup, hcallers⟩ := h
  cases hg : s.callers[i]? with
  | none =>
    simp only [sysStep, hg]
    exact ⟨hnodup, hcallers⟩
  | some caller =>
    have hmem : caller ∈ s.callers := List.getElem?_mem hg
    have hspec := callerStep_spec configs c cfg0 s.cache caller hconf (hcallers caller hmem)
    simp only [sysStep, hg]
    constructor
    · rcases hspec.1 with heq | ⟨p, heq⟩
      · rw [heq]
        exact hnodup
      · rw [heq]
        exact nodup_keys_insert s.cache c p hnodup
    · intro caller2 hmem2
      rcases List.mem_or_eq_of_mem_set hmem2 with hmem3 | heq2
      · obtain ⟨h1, h2, h3⟩ := hcallers caller2 hmem3
        refine ⟨h1, h2, ?_⟩
        intro q hq
        obtain ⟨w, hw⟩ := h3 q hq
        rcases hspec.1 with heq | ⟨p, heq⟩
        · rw [heq]
          exact ⟨w, hw⟩
        · rw [heq]
          exact ⟨p, cacheGet_insert_self s.cache c p⟩
      · rw [heq2]
        exact hspec.2

theorem sysRun_preserves_inv (configs : List ChainConfig) (c : Nat) (cfg0 : ChainConfig)
    (hconf : configs.find? (fun x => x.chain_id == c) = some cfg0)
    (sched : List Nat) :
    ∀ s, sysInv c s → sysInv c (sysRun configs c s sched) := by
  induction sched with
  | nil => intro s h; exact h
  | cons i rest ih =>
    intro s h
    exact ih (sysStep configs c s i) (sysStep_preserves_inv configs c cfg0 hconf s i h)

theorem sysStep_callers_length (configs : List ChainConfig) (c : Nat) (s : SysState)
    (i : Nat) : (sysStep configs c s i).callers.length = s.callers.length := by
  cases hg : s.callers[i]? with
  | none => simp only [sysStep, hg]
  | some caller => simp only [sysStep, hg, List.length_set]

theorem sysRun_callers_length (configs : List ChainConfig) (c : Nat) (sched : List Nat) :
    ∀ s, (sysRun configs c s sched).callers.length = s.callers.length := by
  induction sched with
  | nil => intro s; rfl
  | cons i rest ih =>
    intro s
    rw [sysRun, ih (sysStep configs c s i), sysStep_callers_length]

/-- C9: for any number of callers concurrently resolving the same
(configured) chain id, under every interleaving of their steps the cache
keys stay duplicate-free (no corruption), no caller finishes with an
error (and the model has no panic outcome, matching `get_provider`, which
contains no unwrap), and once every caller has finished exactly one cache
entry is retrievable for that chain id. -/
theorem C9_race_converges_to_single_handle (configs : List ChainConfig) (c : Nat)
    (cfg0 : ChainConfig) (cache0 : Cache) (callers : List Caller) (sched : List Nat)
    (hconf : configs.find? (fun x => x.chain_id == c) = some cfg0)
    (hnodup : (cache0.map Prod.fst).Nodup)
    (hstart : ∀ caller ∈ callers, caller.pc = CallerPC.start ∧ caller.connIsOk = true)
    (hne : callers ≠ [])
    (hfin : ∀ caller ∈ (sysRun configs c ⟨cache0, callers⟩ sched).callers,
      caller.pc.isFinished = true) :
    ((sysRun configs c ⟨cache0, callers⟩ sched).cache.map Prod.fst).Nodup ∧
    (∀ caller ∈ (sysRun configs c ⟨cache0, callers⟩ sched).callers,
      ∃ p, caller.pc = CallerPC.finished (Except.ok p)) ∧
    (∃ p, cacheGet (sysRun configs c ⟨cache0, callers⟩ sched).cache c = some p ∧
      countKey (sysRun configs c ⟨cache0, callers⟩ sched).cache c = 1) := by
  have hinv0 : sysInv c ⟨cache0, callers⟩ := by
    refine ⟨hnodup, ?_⟩
    intro caller hmem
    obtain ⟨hpc, hconn⟩ := hstart caller hmem
    refine ⟨?_, ?_, ?_⟩
    · cases hcn : caller.conn with
      | error e => unfold Caller.connIsOk at hconn; rw [hcn] at hconn; simp at hconn
      | ok p => exact ⟨p, rfl⟩
    · intro e
      rw [hpc]
      intro hcontra
      cases hcontra
    · intro p hp
      rw [hpc] at hp
      cases hp
  have hinv := sysRun_preserves_inv configs c cfg0 hconf sched ⟨cache0, callers⟩ hinv0
  obtain ⟨hnodup2, hcallers2⟩ := hinv
  have hallok : ∀ caller ∈ (sysRun configs c ⟨cache0, callers⟩ sched).callers,
      ∃ p, caller.pc = CallerPC.finished (Except.ok p) := by
    intro caller hmem
    obtain ⟨_, hnoerr, _⟩ := hcallers2 caller hmem
    have hf := hfin caller hmem
    cases hpc : caller.pc with
    | start => rw [hpc] at hf; simp [CallerPC.isFinished] at hf
    | ready url => rw [hpc] at hf; simp [CallerPC.isFinished] at hf
    | finished r =>
      cases r with
      | error e => exact absurd hpc (hnoerr e)
      | ok p => exact ⟨p, rfl⟩

  refine ⟨hnodup2, hallok, ?_⟩
  have hlen : (sysRun configs c ⟨cache0, callers⟩ sched).callers.length = callers.length :=
    sysRun_callers_length configs c sched ⟨cache0, callers⟩
  have hne2 : (sysRun configs c ⟨cache0, callers⟩ sched).callers ≠ [] := by
    intro hnil
    rw [hnil] at hlen
    exact hne (List.eq_nil_of_length_eq_zero hlen.symm)
  obtain ⟨caller0, hmem0⟩ := List.exists_mem_of_ne_nil _ hne2
  obtain ⟨p0, hp0⟩ := hallok caller0 hmem0
  obtain ⟨_, _, hfin0⟩ := hcallers2 caller0 hmem0
  obtain ⟨q, hq⟩ := hfin0 p0 hp0
  exact ⟨q, hq, countKey_eq_one_of_nodup _ c q hnodup2 hq⟩

def raceCallerA : Caller := ⟨CallerPC.start, Except.ok ⟨21, "http://localhost:8545"⟩⟩

def raceCallerB : Caller := ⟨CallerPC.start, Except.ok ⟨22, "http://localhost:8545"⟩⟩

theorem C9_witness :
    ((sysRun demoConfigs 1 ⟨[], [raceCallerA, raceCallerB]⟩ [0, 1, 0, 1]).cache.map
      Prod.fst).Nodup ∧
    (∀ caller ∈ (sysRun demoConfigs 1 ⟨[], [raceCallerA, raceCallerB]⟩ [0, 1, 0, 1]).callers,
      ∃ p, caller.pc = CallerPC.finished (Except.ok p)) ∧
    (∃ p, cacheGet (sysRun demoConfigs 1 ⟨[], [raceCallerA, raceCallerB]⟩ [0, 1, 0, 1]).cache 1
        = some p ∧
      countKey (sysRun demoConfigs 1 ⟨[], [raceCallerA, raceCallerB]⟩ [0, 1, 0, 1]).cache 1
        = 1) :=
  C9_race_converges_to_single_handle demoConfigs 1 ⟨1, "http://localhost:8545"⟩ []
    [raceCallerA, raceCallerB] [0, 1, 0, 1] rfl (by decide) (by decide) (by decide) (by decide)

end Gateway
